import Mathlib

/-!
# A shallow embedding of `library_cli.py`

This file embeds the data-access core of the library CLI
(`src/library_cli.py`): the Authors/Books/Borrows tables of the SQLite
database `libraryDB.sqlite`, and the CRUD / borrow / return operations the
script performs on them.  Each Lean function mirrors the control flow of the
Python function of the same name (the write-plus-verification tail of an
operation is split into a named `...Write`/`...Found` helper): the SQL
statements become list operations on the in-memory table rows (kept in rowid
order: inserts append, deletes filter), the distinct error messages become
constructors of `LibError`, and `True`/`False` returns become `Except.ok` /
`Except.error`.  Interactive `input()` calls are the presentation layer;
their already-parsed values are passed as arguments.  The calendar date
`date.today()` is passed in as an argument as well.

The SQLite schema itself is not part of the repository (the database file is
pre-existing), so the behaviours decided by the schema — the cascade from a
Book deletion to its Borrow rows, the non-blocking deletion of a referenced
Author, and the rejection of a Book insert naming a missing Author — are
modelled from the spec in the definitions marked `Modelled from the spec:`
below.
-/

/-- A row of the `Authors` table: `Author(AuthorID pk, AuthorName, BirthYear)`. -/
structure Author where
  authorId : Nat
  authorName : String
  birthYear : Option Int
deriving DecidableEq

/-- A row of the `Books` table: `Book(BookID pk, Title, PublicationYear, AuthorID)`. -/
structure Book where
  bookId : Nat
  title : String
  publicationYear : Option Int
  authorId : Option Nat
deriving DecidableEq

/-- A row of the `Borrows` table:
`Borrow(BorrowID pk, BookID, BorrowerName, DateBorrowed, ReturnDate)`.
Dates are ISO strings, as stored by `date.today().isoformat()`. -/
structure Borrow where
  borrowId : Nat
  bookId : Nat
  borrowerName : String
  dateBorrowed : String
  returnDate : Option String
deriving DecidableEq

/-- The state of the database: the three tables in rowid order, plus the next
store-generated rowid of each table (SQLite's `lastrowid`). -/
structure DB where
  authors : List Author
  books : List Book
  borrows : List Borrow
  nextAuthorId : Nat
  nextBookId : Nat
  nextBorrowId : Nat
deriving DecidableEq

deriving instance DecidableEq for Except

/-- The error outcomes of the operations, one constructor per distinct failure
path of the source (the spec's error taxonomy). `conflictError` carries the
current borrower's name, printed by `borrow_book`; `canceled` is the
"Delete canceled." path of the two delete operations. -/
inductive LibError where
  | validationError
  | notFoundError
  | conflictError (currentBorrower : String)
  | referenceError
  | verificationError
  | canceled
deriving DecidableEq

/-- Python's `str.strip()` on a list of characters: drop whitespace from both
ends. -/
def pyStrip (l : List Char) : List Char :=
  ((l.dropWhile Char.isWhitespace).reverse.dropWhile Char.isWhitespace).reverse

/-- Python's `.lower().strip()`, applied by `delete_book` / `delete_author` to
the interactive confirmation answer before comparing it with `"yes"`. -/
def normalizeConfirm (s : String) : String :=
  String.mk (pyStrip (s.data.map Char.toLower))

/-- The birth-year validation of `add_author` / `update_author`
(`birth_year < 0 or birth_year > current_year` rejects); an omitted year is
accepted as NULL. -/
def birthYearValid (currentYear : Int) : Option Int → Bool
  | none => true
  | some y => decide (0 ≤ y) && decide (y ≤ currentYear)

/-- The publication-year validation of `add_book`
(`pub_year < 0 or pub_year > date.today().year + 10` rejects); an omitted
year is accepted as NULL. -/
def pubYearValid (currentYear : Int) : Option Int → Bool
  | none => true
  | some y => decide (0 ≤ y) && decide (y ≤ currentYear + 10)

/-- The year cell of the listings (`view_all_books` line 185, `view_authors`
line 338): `str(y) if y else "Unknown"` — a Python-truthiness test, so both
NULL and `0` render as `"Unknown"`. -/
def renderYearCell : Option Int → String
  | none => "Unknown"
  | some y => if y = 0 then "Unknown" else toString y

/-- Insert a row into a list kept sorted by `le` (the model of SQL
`ORDER BY`). -/
def insertSorted {α : Type} (le : α → α → Bool) (a : α) : List α → List α
  | [] => [a]
  | b :: t => if le a b then a :: b :: t else b :: insertSorted le a t

/-- Sort a list of rows by `le`: the model of a `SELECT ... ORDER BY`. -/
def sortRows {α : Type} (le : α → α → Bool) : List α → List α
  | [] => []
  | a :: t => insertSorted le a (sortRows le t)

-- Author operations

/-- The `INSERT INTO Authors (AuthorName, BirthYear)` of `add_author`
(lines 303-316) together with its read-back verification by `lastrowid`. -/
def addAuthorWrite (db : DB) (name : String) (birthYear : Option Int) :
    DB × Except LibError Nat :=
  ({ db with authors := db.authors ++ [⟨db.nextAuthorId, name, birthYear⟩],
             nextAuthorId := db.nextAuthorId + 1 },
   if ((db.authors ++ [(⟨db.nextAuthorId, name, birthYear⟩ : Author)]).find?
        (fun a => a.authorId == db.nextAuthorId)).isSome
   then .ok db.nextAuthorId else .error .verificationError)

/-- Embeds `add_author` (library_cli.py lines 283-324): validates the name and
birth year, then inserts and verifies.  Returns the new `AuthorID`. -/
def add_author (db : DB) (name : String) (birthYear : Option Int)
    (currentYear : Int) : DB × Except LibError Nat :=
  if name = "" then (db, .error .validationError)
  else if !(birthYearValid currentYear birthYear) then
    (db, .error .validationError)
  else addAuthorWrite db name birthYear

/-- Embeds `view_authors` (lines 326-345): `SELECT * FROM Authors ORDER BY
AuthorName`. -/
def view_authors (db : DB) : List Author :=
  sortRows (fun a b => a.authorName ≤ b.authorName) db.authors

/-- The `UPDATE Authors SET AuthorName = ?, BirthYear = ? WHERE AuthorID = ?`
of `update_author` (lines 379-391) together with its read-back verification,
which compares the re-read name with the intended one. -/
def updateAuthorWrite (db : DB) (authorId : Nat) (newName : String)
    (newBirthYear : Option Int) : DB × Except LibError Unit :=
  ({ db with authors := db.authors.map (fun x =>
      if x.authorId == authorId then
        { x with authorName := newName, birthYear := newBirthYear }
      else x) },
   match (db.authors.map (fun x =>
      if x.authorId == authorId then
        { x with authorName := newName, birthYear := newBirthYear }
      else x)).find? (fun x => x.authorId == authorId) with
   | some u =>
       if u.authorName == newName then .ok () else .error .verificationError
   | none => .error .verificationError)

/-- The birth-year resolution of `update_author` (lines 369-377): a supplied
input replaces the stored value, an omitted one keeps the current value. -/
def suppliedOr (input : Option Int) (current : Option Int) : Option Int :=
  match input with
  | some y => some y
  | none => current

/-- The body of `update_author` once the row `a` has been found (lines
362-391): an empty name input keeps the current name, an omitted birth year
keeps the current one, and a supplied birth year is revalidated. -/
def updateAuthorFound (db : DB) (authorId : Nat) (a : Author)
    (newNameInput : String) (newBirthYearInput : Option Int)
    (currentYear : Int) : DB × Except LibError Unit :=
  if !(birthYearValid currentYear newBirthYearInput) then
    (db, .error .validationError)
  else
    updateAuthorWrite db authorId
      (if newNameInput = "" then a.authorName else newNameInput)
      (suppliedOr newBirthYearInput a.birthYear)

/-- Embeds `update_author` (lines 347-400): `NotFoundError` if the id is
absent, otherwise the partial update of `updateAuthorFound`. -/
def update_author (db : DB) (authorId : Nat) (newNameInput : String)
    (newBirthYearInput : Option Int) (currentYear : Int) :
    DB × Except LibError Unit :=
  match db.authors.find? (fun a => a.authorId == authorId) with
  | none => (db, .error .notFoundError)
  | some a =>
      updateAuthorFound db authorId a newNameInput newBirthYearInput currentYear

/-- Modelled from the spec: the stored schema of `libraryDB.sqlite` is not in
the repository, and it decides what `DELETE FROM Authors WHERE AuthorID = ?`
does when Book rows still reference the author.  Per the spec ("the reference
behavior only warns about affected Book rows without nulling or blocking"),
the DELETE removes the Author row and leaves every Book row untouched. -/
def authorDeleteEffect (db : DB) (authorId : Nat) : DB :=
  { db with authors := db.authors.filter (fun a => a.authorId != authorId) }

/-- The body of `delete_author` once the row has been found (lines 417-441):
counts the referencing Book rows for the (informational, non-blocking)
warning in the confirmation prompt; deletes only when the lower-cased,
stripped answer is exactly `"yes"`; verifies the row is gone.  Returns the
informational book count on success. -/
def deleteAuthorFound (db : DB) (authorId : Nat) (confirmAnswer : String) :
    DB × Except LibError Nat :=
  if normalizeConfirm confirmAnswer = "yes" then
    (authorDeleteEffect db authorId,
     if ((authorDeleteEffect db authorId).authors.find?
          (fun a => a.authorId == authorId)).isSome
     then .error .verificationError
     else .ok (db.books.countP (fun b => b.authorId == some authorId)))
  else (db, .error .canceled)

/-- Embeds `delete_author` (lines 402-447): `NotFoundError` if the id is
absent, otherwise the confirmation-guarded delete of `deleteAuthorFound`. -/
def delete_author (db : DB) (authorId : Nat) (confirmAnswer : String) :
    DB × Except LibError Nat :=
  match db.authors.find? (fun a => a.authorId == authorId) with
  | none => (db, .error .notFoundError)
  | some _ => deleteAuthorFound db authorId confirmAnswer

-- Book operations

/-- The `INSERT INTO Books (Title, PublicationYear, AuthorID)` of `add_book`
(lines 138-151) together with its read-back verification by `lastrowid`. -/
def insertBookRow (db : DB) (title : String) (pubYear : Option Int)
    (authorId : Option Nat) : DB × Except LibError Nat :=
  ({ db with books := db.books ++ [⟨db.nextBookId, title, pubYear, authorId⟩],
             nextBookId := db.nextBookId + 1 },
   if ((db.books ++ [(⟨db.nextBookId, title, pubYear, authorId⟩ : Book)]).find?
        (fun b => b.bookId == db.nextBookId)).isSome
   then .ok db.nextBookId else .error .verificationError)

/-- Modelled from the spec: the stored schema is not in the repository; per
the spec's store-enforced referential integrity ("every non-null Book.AuthorID
references an existing Author"), the `INSERT INTO Books` raises
`sqlite3.IntegrityError` — caught by `add_book` as a failure, before any row
is persisted — when the supplied `AuthorID` matches no Author row, and
otherwise performs the insert.  (The explicit pre-check of menu choice 1,
lines 116-121, tests the same condition and reports the same failure.) -/
def insertBook (db : DB) (title : String) (pubYear : Option Int)
    (authorId : Option Nat) : DB × Except LibError Nat :=
  match authorId with
  | none => insertBookRow db title pubYear none
  | some aid =>
      if db.authors.any (fun a => a.authorId == aid) then
        insertBookRow db title pubYear (some aid)
      else (db, .error .referenceError)

/-- The author-selection menu of `add_book` (lines 104-136): use an existing
author (the id input may be left empty, keeping `None`), add a new author
first and then enter an id, skip, or give an invalid choice. -/
inductive AuthorChoice where
  | useExisting (authorIdInput : Option Nat)
  | addNew (name : String) (birthYear : Option Int) (authorIdInput : Option Nat)
  | skipAuthor
  | invalidChoice
deriving DecidableEq

/-- Menu choice 2 of `add_book` (lines 122-131): first run `add_author`; on
success take an author-id input (without an existence pre-check — the insert
itself enforces the foreign key); if `add_author` failed, or the id input was
left empty, the book is added without an author. -/
def addBookWithNewAuthor (db : DB) (title : String) (pubYear : Option Int)
    (name : String) (birthYear : Option Int) (aidInput : Option Nat)
    (currentYear : Int) : DB × Except LibError Nat :=
  match add_author db name birthYear currentYear with
  | (db1, .ok _) =>
      match aidInput with
      | some aid => insertBook db1 title pubYear (some aid)
      | none => insertBook db1 title pubYear none
  | (db1, .error _) => insertBook db1 title pubYear none

/-- Embeds `add_book` (lines 85-164): validates the title and publication
year, resolves the author id per the menu choice, inserts and verifies. -/
def add_book (db : DB) (title : String) (pubYear : Option Int)
    (choice : AuthorChoice) (currentYear : Int) : DB × Except LibError Nat :=
  if title = "" then (db, .error .validationError)
  else if !(pubYearValid currentYear pubYear) then (db, .error .validationError)
  else
    match choice with
    | .useExisting none => insertBook db title pubYear none
    | .useExisting (some aid) => insertBook db title pubYear (some aid)
    | .addNew name birthYear aidInput =>
        addBookWithNewAuthor db title pubYear name birthYear aidInput currentYear
    | .skipAuthor => insertBook db title pubYear none
    | .invalidChoice => insertBook db title pubYear none

/-- A rendered line of the book listing: id, title, year cell, author cell. -/
structure BookLine where
  bookId : Nat
  title : String
  yearCell : String
  authorCell : String
deriving DecidableEq

/-- Embeds `view_all_books` (lines 166-192): `SELECT ... FROM Books b LEFT
JOIN Authors a ON b.AuthorID = a.AuthorID ORDER BY b.Title`, rendering a NULL
join result as `"Unknown Author"` and the year cell by truthiness. -/
def view_all_books (db : DB) : List BookLine :=
  sortRows (fun x y => x.title ≤ y.title) (db.books.map (fun b =>
    BookLine.mk b.bookId b.title (renderYearCell b.publicationYear)
      (match b.authorId.bind (fun aid =>
          db.authors.find? (fun a => a.authorId == aid)) with
        | some a => if a.authorName = "" then "Unknown Author" else a.authorName
        | none => "Unknown Author")))

/-- The `UPDATE Books SET Title = ? WHERE BookID = ?` of `update_book_title`
(lines 216-228) together with its read-back verification, which compares the
re-read title with the new one. -/
def updateBookTitleWrite (db : DB) (bookId : Nat) (newTitle : String) :
    DB × Except LibError Unit :=
  ({ db with books := db.books.map (fun b =>
      if b.bookId == bookId then { b with title := newTitle } else b) },
   match (db.books.map (fun b =>
      if b.bookId == bookId then { b with title := newTitle } else b)).find?
        (fun b => b.bookId == bookId) with
   | some u => if u.title == newTitle then .ok () else .error .verificationError
   | none => .error .verificationError)

/-- Embeds `update_book_title` (lines 194-237): `NotFoundError` if the id is
absent, `ValidationError` on an empty new title, otherwise the verified
update. -/
def update_book_title (db : DB) (bookId : Nat) (newTitle : String) :
    DB × Except LibError Unit :=
  match db.books.find? (fun b => b.bookId == bookId) with
  | none => (db, .error .notFoundError)
  | some _ =>
      if newTitle = "" then (db, .error .validationError)
      else updateBookTitleWrite db bookId newTitle

/-- Modelled from the spec: the stored schema is not in the repository; per
the spec ("cascades deletion to every Borrow row referencing this book"), the
`DELETE FROM Books WHERE BookID = ?` also removes every Borrow row whose
`BookID` is the deleted book's. -/
def cascadeDeleteBorrows (borrows : List Borrow) (bookId : Nat) : List Borrow :=
  borrows.filter (fun r => r.bookId != bookId)

/-- The body of `delete_book` once the row has been found (lines 254-270):
deletes only when the lower-cased, stripped confirmation answer is exactly
`"yes"` (cascading to the Borrow rows per the schema modelled above), and
verifies the Book row is gone by re-reading it. -/
def deleteBookFound (db : DB) (bookId : Nat) (confirmAnswer : String) :
    DB × Except LibError Unit :=
  if normalizeConfirm confirmAnswer = "yes" then
    ({ db with books := db.books.filter (fun b => b.bookId != bookId),
               borrows := cascadeDeleteBorrows db.borrows bookId },
     if ((db.books.filter (fun b => b.bookId != bookId)).find?
          (fun b => b.bookId == bookId)).isSome
     then .error .verificationError else .ok ())
  else (db, .error .canceled)

/-- Embeds `delete_book` (lines 239-279): `NotFoundError` if the id is
absent, otherwise the confirmation-guarded cascading delete of
`deleteBookFound`. -/
def delete_book (db : DB) (bookId : Nat) (confirmAnswer : String) :
    DB × Except LibError Unit :=
  match db.books.find? (fun b => b.bookId == bookId) with
  | none => (db, .error .notFoundError)
  | some _ => deleteBookFound db bookId confirmAnswer

-- Borrowing operations

/-- The `INSERT INTO Borrows (BookID, BorrowerName, DateBorrowed)` of
`borrow_book` (lines 478-491) — `ReturnDate` starts NULL — together with its
read-back verification by `lastrowid`. -/
def borrowBookInsert (db : DB) (bookId : Nat) (borrowerName today : String) :
    DB × Except LibError Nat :=
  ({ db with
      borrows := db.borrows ++ [⟨db.nextBorrowId, bookId, borrowerName, today, none⟩],
      nextBorrowId := db.nextBorrowId + 1 },
   if ((db.borrows ++ [(⟨db.nextBorrowId, bookId, borrowerName, today, none⟩ : Borrow)]).find?
        (fun r => r.borrowId == db.nextBorrowId)).isSome
   then .ok db.nextBorrowId else .error .verificationError)

/-- Embeds `borrow_book` (lines 451-500): rejects an empty (stripped)
borrower name; `NotFoundError` if the book id is absent; `ConflictError`,
reporting the current borrower's name, if an open Borrow row
(`ReturnDate IS NULL`) exists for the book; otherwise inserts an open Borrow
row dated today and verifies it. -/
def borrow_book (db : DB) (bookId : Nat) (borrowerName : String)
    (today : String) : DB × Except LibError Nat :=
  if borrowerName = "" then (db, .error .validationError)
  else
    match db.books.find? (fun b => b.bookId == bookId) with
    | none => (db, .error .notFoundError)
    | some _ =>
      match db.borrows.find? (fun r => r.bookId == bookId && r.returnDate.isNone) with
      | some cur => (db, .error (.conflictError cur.borrowerName))
      | none => borrowBookInsert db bookId borrowerName today

/-- The `UPDATE Borrows SET ReturnDate = ? WHERE BorrowID = ?` of
`return_book` (lines 523-536) together with its read-back verification, which
re-reads the row and checks the stored `ReturnDate` is truthy (non-NULL and
non-empty). -/
def returnBookWrite (db : DB) (borrowId : Nat) (today : String) :
    DB × Except LibError Unit :=
  ({ db with borrows := db.borrows.map (fun r =>
      if r.borrowId == borrowId then { r with returnDate := some today } else r) },
   match (db.borrows.map (fun r =>
      if r.borrowId == borrowId then { r with returnDate := some today } else r)).find?
        (fun r => r.borrowId == borrowId) with
   | some u =>
       match u.returnDate with
       | some d => if d = "" then .error .verificationError else .ok ()
       | none => .error .verificationError
   | none => .error .verificationError)

/-- Embeds `return_book` (lines 502-545): looks for a Borrow row with this id
that is still open, joined with its Book (`JOIN Books b ON br.BookID =
b.BookID ... WHERE br.BorrowID = ? AND br.ReturnDate IS NULL`);
`NotFoundError` if none; otherwise the verified update of
`returnBookWrite`. -/
def return_book (db : DB) (borrowId : Nat) (today : String) :
    DB × Except LibError Unit :=
  match db.borrows.find? (fun r => r.borrowId == borrowId && r.returnDate.isNone
      && db.books.any (fun b => b.bookId == r.bookId)) with
  | none => (db, .error .notFoundError)
  | some _ => returnBookWrite db borrowId today

/-- A row of the borrow listing: `SELECT br.BorrowID, b.Title,
br.BorrowerName, br.DateBorrowed, br.ReturnDate`. -/
structure BorrowView where
  borrowId : Nat
  title : String
  borrowerName : String
  dateBorrowed : String
  returnDate : Option String
deriving DecidableEq

/-- Embeds `view_borrowed_books` (lines 547-583): inner-joins Borrows with
Books, optionally keeps only the open rows (`WHERE br.ReturnDate IS NULL`),
and orders by `DateBorrowed DESC`. -/
def view_borrowed_books (db : DB) (onlyOutstanding : Bool) : List BorrowView :=
  sortRows (fun x y => y.dateBorrowed ≤ x.dateBorrowed)
    (db.borrows.filterMap (fun r =>
      match db.books.find? (fun b => b.bookId == r.bookId) with
      | some b =>
          if !onlyOutstanding || r.returnDate.isNone then
            some (BorrowView.mk r.borrowId b.title r.borrowerName
              r.dateBorrowed r.returnDate)
          else none
      | none => none))

-- The core operations as a single step type (used by the invariant claims)

/-- One core mutating operation, with all its (already parsed) interactive
inputs. -/
inductive Op where
  | opBorrow (bookId : Nat) (borrowerName : String) (today : String)
  | opReturn (borrowId : Nat) (today : String)
  | opAddBook (title : String) (pubYear : Option Int) (choice : AuthorChoice)
      (currentYear : Int)
  | opUpdateBookTitle (bookId : Nat) (newTitle : String)
  | opDeleteBook (bookId : Nat) (confirmAnswer : String)
  | opAddAuthor (name : String) (birthYear : Option Int) (currentYear : Int)
  | opUpdateAuthor (authorId : Nat) (newNameInput : String)
      (newBirthYearInput : Option Int) (currentYear : Int)
  | opDeleteAuthor (authorId : Nat) (confirmAnswer : String)
deriving DecidableEq

/-- The database state after running one operation (the operation's result
value is dropped). -/
def applyOp (op : Op) (db : DB) : DB :=
  match op with
  | .opBorrow bookId name today => (borrow_book db bookId name today).1
  | .opReturn borrowId today => (return_book db borrowId today).1
  | .opAddBook title pubYear choice cy => (add_book db title pubYear choice cy).1
  | .opUpdateBookTitle bookId newTitle => (update_book_title db bookId newTitle).1
  | .opDeleteBook bookId ans => (delete_book db bookId ans).1
  | .opAddAuthor name birthYear cy => (add_author db name birthYear cy).1
  | .opUpdateAuthor id n b cy => (update_author db id n b cy).1
  | .opDeleteAuthor id ans => (delete_author db id ans).1

/-- The number of open Borrow rows of a given book in a borrow table. -/
def openCountL (l : List Borrow) (bookId : Nat) : Nat :=
  l.countP (fun r => r.bookId == bookId && r.returnDate.isNone)

/-- The single-outstanding-borrow invariant: for any `BookID`, at most one
Borrow row has `ReturnDate` = NULL. -/
def AtMostOneOpen (db : DB) : Prop :=
  ∀ bookId, openCountL db.borrows bookId ≤ 1

/-- Well-formedness of the store-generated ids: every id is below its table's
next rowid, and ids are unique within each table. -/
def IdsWF (db : DB) : Prop :=
  (∀ a ∈ db.authors, a.authorId < db.nextAuthorId) ∧
  (∀ b ∈ db.books, b.bookId < db.nextBookId) ∧
  (∀ r ∈ db.borrows, r.borrowId < db.nextBorrowId) ∧
  (db.authors.map Author.authorId).Nodup ∧
  (db.books.map Book.bookId).Nodup ∧
  (db.borrows.map Borrow.borrowId).Nodup

-- Concrete states used to exercise the theorems below

/-- A database with empty tables. -/
def emptyDB : DB := ⟨[], [], [], 1, 1, 1⟩

/-- One book, never borrowed. -/
def dbDune : DB := ⟨[], [⟨1, "Dune", some 1965, none⟩], [], 1, 2, 1⟩

/-- One book, currently borrowed by Alice. -/
def dbDuneBorrowed : DB :=
  ⟨[], [⟨1, "Dune", some 1965, none⟩], [⟨1, 1, "Alice", "2026-01-01", none⟩], 1, 2, 2⟩

/-- One book, borrowed by Alice and returned. -/
def dbDuneReturned : DB :=
  ⟨[], [⟨1, "Dune", some 1965, none⟩],
   [⟨1, 1, "Alice", "2026-01-01", some "2026-01-03"⟩], 1, 2, 2⟩

/-- One author, and one book referencing the author. -/
def dbJaneBook : DB :=
  ⟨[⟨1, "Jane Doe", some 1970⟩], [⟨1, "Dune", some 1965, some 1⟩], [], 2, 2, 1⟩

-- General list lemmas used by the proofs below

/-- Mapping a function that never turns a non-`p` element into a `p` element
cannot increase the `p`-count. -/
theorem countP_map_le {α : Type} (p : α → Bool) (f : α → α)
    (h : ∀ a, p (f a) = true → p a = true) (l : List α) :
    (l.map f).countP p ≤ l.countP p := by
  induction l with
  | nil => simp
  | cons a t ih =>
      simp only [List.map_cons, List.countP_cons]
      by_cases hp : p (f a) = true
      · rw [if_pos hp, if_pos (h a hp)]
        omega
      · rw [if_neg hp]
        split <;> omega

/-- Filtering cannot increase the `p`-count. -/
theorem countP_filter_le {α : Type} (p q : α → Bool) (l : List α) :
    (l.filter q).countP p ≤ l.countP p := by
  induction l with
  | nil => simp
  | cons a t ih =>
      by_cases hq : q a = true
      · simp only [List.filter_cons, hq, if_true, List.countP_cons]
        split <;> omega
      · simp only [List.filter_cons, hq, Bool.false_eq_true, if_false,
          List.countP_cons]
        split <;> omega

/-- If `find?` fails, the `p`-count is zero. -/
theorem countP_eq_zero_of_find?_none {α : Type} (p : α → Bool) (l : List α)
    (h : l.find? p = none) : l.countP p = 0 :=
  List.countP_eq_zero.mpr (fun a ha => List.find?_eq_none.mp h a ha)

/-- In a list whose `p`-count is at most one, two members satisfying `p` are
equal. -/
theorem eq_of_countP_le_one {α : Type} (p : α → Bool) {l : List α}
    (h : l.countP p ≤ 1) {a b : α} (ha : a ∈ l) (hb : b ∈ l)
    (hpa : p a = true) (hpb : p b = true) : a = b := by
  induction l with
  | nil => cases ha
  | cons x t ih =>
      rw [List.countP_cons] at h
      rcases List.mem_cons.mp ha with ha1 | ha2
      · rcases List.mem_cons.mp hb with hb1 | hb2
        · rw [ha1, hb1]
        · exfalso
          subst ha1
          rw [if_pos hpa] at h
          have ht : t.countP p = 0 := by omega
          exact List.countP_eq_zero.mp ht b hb2 hpb
      · rcases List.mem_cons.mp hb with hb1 | hb2
        · exfalso
          subst hb1
          rw [if_pos hpb] at h
          have ht : t.countP p = 0 := by omega
          exact List.countP_eq_zero.mp ht a ha2 hpa
        · have ht : t.countP p ≤ 1 := by split at h <;> omega
          exact ih ht ha2 hb2

/-- `find?` commutes with a map that does not change which elements satisfy
the predicate. -/
theorem find?_map_pred {α : Type} (p : α → Bool) (f : α → α)
    (hf : ∀ x, p (f x) = p x) (l : List α) :
    (l.map f).find? p = (l.find? p).map f := by
  induction l with
  | nil => simp
  | cons a t ih =>
      by_cases hp : p a = true
      · rw [List.map_cons, List.find?_cons_of_pos _ (by rw [hf a]; exact hp),
            List.find?_cons_of_pos _ hp, Option.map_some']
      · simp only [Bool.not_eq_true] at hp
        rw [List.map_cons, List.find?_cons_of_neg _ (by simp [hf a, hp]),
            List.find?_cons_of_neg _ (by simp [hp]), ih]

/-- Membership in `insertSorted`. -/
theorem mem_insertSorted {α : Type} (le : α → α → Bool) (x a : α) (l : List α) :
    a ∈ insertSorted le x l ↔ a = x ∨ a ∈ l := by
  induction l with
  | nil => simp [insertSorted]
  | cons b t ih =>
      simp only [insertSorted]
      split
      · simp only [List.mem_cons]
      · simp only [List.mem_cons, ih]
        tauto

/-- `sortRows` reorders a list without changing its members. -/
theorem mem_sortRows {α : Type} (le : α → α → Bool) (a : α) (l : List α) :
    a ∈ sortRows le l ↔ a ∈ l := by
  induction l with
  | nil => simp [sortRows]
  | cons b t ih =>
      simp only [sortRows, mem_insertSorted, ih, List.mem_cons]

-- Frame and shape lemmas: which tables each operation can touch, and how

/-- `add_author` touches only the Authors table. -/
theorem add_author_frame (db : DB) (name : String) (birthYear : Option Int)
    (currentYear : Int) :
    (add_author db name birthYear currentYear).1.books = db.books ∧
    (add_author db name birthYear currentYear).1.borrows = db.borrows := by
  unfold add_author
  by_cases hn : name = ""
  · rw [if_pos hn]
    exact ⟨rfl, rfl⟩
  · rw [if_neg hn]
    by_cases hv : (!birthYearValid currentYear birthYear) = true
    · rw [if_pos hv]
      exact ⟨rfl, rfl⟩
    · rw [if_neg hv]
      exact ⟨rfl, rfl⟩

/-- `updateAuthorFound` touches only the Authors table. -/
theorem updateAuthorFound_frame (db : DB) (authorId : Nat) (a : Author)
    (n : String) (b : Option Int) (cy : Int) :
    (updateAuthorFound db authorId a n b cy).1.books = db.books ∧
    (updateAuthorFound db authorId a n b cy).1.borrows = db.borrows := by
  unfold updateAuthorFound
  by_cases hv : (!birthYearValid cy b) = true
  · rw [if_pos hv]
    exact ⟨rfl, rfl⟩
  · rw [if_neg hv]
    exact ⟨rfl, rfl⟩

/-- `update_author` touches only the Authors table. -/
theorem update_author_frame (db : DB) (authorId : Nat) (n : String)
    (b : Option Int) (cy : Int) :
    (update_author db authorId n b cy).1.books = db.books ∧
    (update_author db authorId n b cy).1.borrows = db.borrows := by
  unfold update_author
  rcases hfind : db.authors.find? (fun a => a.authorId == authorId) with _ | a
  · rw [hfind]
    exact ⟨rfl, rfl⟩
  · rw [hfind]
    exact updateAuthorFound_frame db authorId a n b cy

/-- `deleteAuthorFound` touches only the Authors table. -/
theorem deleteAuthorFound_frame (db : DB) (authorId : Nat) (ans : String) :
    (deleteAuthorFound db authorId ans).1.books = db.books ∧
    (deleteAuthorFound db authorId ans).1.borrows = db.borrows := by
  unfold deleteAuthorFound
  by_cases hc : normalizeConfirm ans = "yes"
  · rw [if_pos hc]
    exact ⟨rfl, rfl⟩
  · rw [if_neg hc]
    exact ⟨rfl, rfl⟩

/-- `delete_author` touches only the Authors table. -/
theorem delete_author_frame (db : DB) (authorId : Nat) (ans : String) :
    (delete_author db authorId ans).1.books = db.books ∧
    (delete_author db authorId ans).1.borrows = db.borrows := by
  unfold delete_author
  rcases hfind : db.authors.find? (fun a => a.authorId == authorId) with _ | a
  · rw [hfind]
    exact ⟨rfl, rfl⟩
  · rw [hfind]
    exact deleteAuthorFound_frame db authorId ans

/-- `insertBook` touches only the Books table. -/
theorem insertBook_frame (db : DB) (t : String) (p : Option Int)
    (a : Option Nat) :
    (insertBook db t p a).1.authors = db.authors ∧
    (insertBook db t p a).1.borrows = db.borrows := by
  cases a with
  | none => exact ⟨rfl, rfl⟩
  | some aid =>
      rw [show insertBook db t p (some aid)
            = if db.authors.any (fun x => x.authorId == aid) then
                insertBookRow db t p (some aid)
              else (db, Except.error LibError.referenceError) from rfl]
      by_cases hex : (db.authors.any fun x => x.authorId == aid) = true
      · rw [if_pos hex]
        exact ⟨rfl, rfl⟩
      · rw [if_neg hex]
        exact ⟨rfl, rfl⟩

/-- `addBookWithNewAuthor` never touches the Borrows table. -/
theorem addBookWithNewAuthor_borrows (db : DB) (title : String)
    (pubYear : Option Int) (name : String) (birthYear : Option Int)
    (aidInput : Option Nat) (cy : Int) :
    (addBookWithNewAuthor db title pubYear name birthYear aidInput cy).1.borrows
      = db.borrows := by
  unfold addBookWithNewAuthor
  rcases hpair : add_author db name birthYear cy with ⟨db1, res⟩
  have hstep : db1.borrows = db.borrows := by
    have h2 := (add_author_frame db name birthYear cy).2
    rw [hpair] at h2
    exact h2
  cases res with
  | ok k =>
      cases aidInput with
      | some aid =>
          exact ((insertBook_frame db1 title pubYear (some aid)).2).trans hstep
      | none => exact ((insertBook_frame db1 title pubYear none).2).trans hstep
  | error e => exact ((insertBook_frame db1 title pubYear none).2).trans hstep

/-- `add_book` never touches the Borrows table (not even on the path that
first creates a new author). -/
theorem add_book_frame (db : DB) (title : String) (pubYear : Option Int)
    (choice : AuthorChoice) (cy : Int) :
    (add_book db title pubYear choice cy).1.borrows = db.borrows := by
  unfold add_book
  by_cases ht : title = ""
  · rw [if_pos ht]
  · rw [if_neg ht]
    by_cases hpv : (!pubYearValid cy pubYear) = true
    · rw [if_pos hpv]
    · rw [if_neg hpv]
      cases choice with
      | useExisting aidInput =>
          cases aidInput with
          | none => exact (insertBook_frame db title pubYear none).2
          | some aid => exact (insertBook_frame db title pubYear (some aid)).2
      | addNew name birthYear aidInput =>
          exact addBookWithNewAuthor_borrows db title pubYear name birthYear
            aidInput cy
      | skipAuthor => exact (insertBook_frame db title pubYear none).2
      | invalidChoice => exact (insertBook_frame db title pubYear none).2

/-- `update_book_title` touches only the Books table. -/
theorem update_book_title_frame (db : DB) (bookId : Nat) (newTitle : String) :
    (update_book_title db bookId newTitle).1.authors = db.authors ∧
    (update_book_title db bookId newTitle).1.borrows = db.borrows := by
  unfold update_book_title
  rcases hfind : db.books.find? (fun b => b.bookId == bookId) with _ | b
  · rw [hfind]
    exact ⟨rfl, rfl⟩
  · rw [hfind]
    by_cases hT : newTitle = ""
    · rw [if_pos hT]
      exact ⟨rfl, rfl⟩
    · rw [if_neg hT]
      exact ⟨rfl, rfl⟩

/-- `delete_book` either leaves the state unchanged or removes the book and
cascades to its Borrow rows. -/
theorem delete_book_state (db : DB) (bookId : Nat) (ans : String) :
    (delete_book db bookId ans).1 = db ∨
    (delete_book db bookId ans).1 =
      { db with books := db.books.filter (fun b => b.bookId != bookId),
                borrows := cascadeDeleteBorrows db.borrows bookId } := by
  unfold delete_book deleteBookFound
  rcases hfind : db.books.find? (fun b => b.bookId == bookId) with _ | b
  · rw [hfind]
    exact Or.inl rfl
  · rw [hfind]
    by_cases hc : normalizeConfirm ans = "yes"
    · rw [if_pos hc]
      exact Or.inr rfl
    · rw [if_neg hc]
      exact Or.inl rfl

/-- `borrow_book` either leaves the state unchanged or — only when no open
Borrow row exists for the book — appends one open row for it. -/
theorem borrow_book_state (db : DB) (bookId : Nat) (name today : String) :
    (borrow_book db bookId name today).1 = db ∨
    ((borrow_book db bookId name today).1.borrows
        = db.borrows ++ [⟨db.nextBorrowId, bookId, name, today, none⟩] ∧
     db.borrows.find? (fun r => r.bookId == bookId && r.returnDate.isNone)
        = none) := by
  unfold borrow_book
  by_cases hn : name = ""
  · rw [if_pos hn]
    exact Or.inl rfl
  · rw [if_neg hn]
    rcases hfb : db.books.find? (fun b => b.bookId == bookId) with _ | b
    · rw [hfb]
      exact Or.inl rfl
    · rw [hfb]
      rcases hfc : db.borrows.find?
          (fun r => r.bookId == bookId && r.returnDate.isNone) with _ | cur
      · rw [hfc]
        exact Or.inr ⟨rfl, rfl⟩
      · rw [hfc]
        exact Or.inl rfl

/-- `return_book` either leaves the state unchanged or — only when an open
Borrow row with this id exists — closes the rows with this id. -/
theorem return_book_state (db : DB) (borrowId : Nat) (today : String) :
    (return_book db borrowId today).1 = db ∨
    (∃ g ∈ db.borrows, g.borrowId = borrowId ∧ g.returnDate = none ∧
      (return_book db borrowId today).1.borrows = db.borrows.map (fun r =>
        if r.borrowId == borrowId then { r with returnDate := some today }
        else r)) := by
  unfold return_book
  rcases hfr : db.borrows.find? (fun r => r.borrowId == borrowId
      && r.returnDate.isNone
      && db.books.any (fun b => b.bookId == r.bookId)) with _ | g
  · rw [hfr]
    exact Or.inl rfl
  · rw [hfr]
    have hmem := List.mem_of_find?_eq_some hfr
    have hpred := List.find?_some hfr
    simp only [Bool.and_eq_true, beq_iff_eq, Option.isNone_iff_eq_none] at hpred
    exact Or.inr ⟨g, hmem, hpred.1.1, hpred.1.2, rfl⟩

-- C1

/-- C1: starting from any state in which, for every BookID, at most one
Borrow row has ReturnDate = null, every core operation (Borrow, Return, and
the Create/Update/Delete operations on books and authors) preserves that
invariant: after the operation, for every BookID at most one Borrow row has
ReturnDate = null. -/
theorem single_open_borrow_invariant_preserved (db : DB) (op : Op)
    (h : AtMostOneOpen db) : AtMostOneOpen (applyOp op db) := by
  intro bid
  cases op with
  | opBorrow bookId name today =>
      simp only [applyOp]
      rcases borrow_book_state db bookId name today with hs | ⟨he, hnone⟩
      · rw [hs]
        exact h bid
      · rw [he]
        unfold openCountL
        rw [List.countP_append]
        by_cases hbid : bid = bookId
        · subst hbid
          rw [countP_eq_zero_of_find?_none _ _ hnone]
          simp
        · have hne : ((bookId : Nat) == bid) = false :=
            beq_eq_false_iff_ne.mpr (fun hh => hbid hh.symm)
          have hz : List.countP (fun r => r.bookId == bid && r.returnDate.isNone)
              [(⟨db.nextBorrowId, bookId, name, today, none⟩ : Borrow)] = 0 := by
            simp [hne]
          rw [hz, Nat.add_zero]
          exact h bid
  | opReturn borrowId today =>
      simp only [applyOp]
      rcases return_book_state db borrowId today with hs | ⟨g, hg, hgid, hgopen, he⟩
      · rw [hs]
        exact h bid
      · rw [he]
        refine le_trans (countP_map_le _ _ ?_ db.borrows) (h bid)
        intro x hx
        by_cases hxid : (x.borrowId == borrowId) = true
        · rw [if_pos hxid] at hx
          simp at hx
        · rw [if_neg hxid] at hx
          exact hx
  | opAddBook title pubYear choice cy =>
      simp only [applyOp]
      rw [add_book_frame db title pubYear choice cy]
      exact h bid
  | opUpdateBookTitle bookId newTitle =>
      simp only [applyOp]
      rw [(update_book_title_frame db bookId newTitle).2]
      exact h bid
  | opDeleteBook bookId ans =>
      simp only [applyOp]
      rcases delete_book_state db bookId ans with hs | hs
      · rw [hs]
        exact h bid
      · rw [hs]
        exact le_trans (countP_filter_le _ _ _) (h bid)
  | opAddAuthor name birthYear cy =>
      simp only [applyOp]
      rw [(add_author_frame db name birthYear cy).2]
      exact h bid
  | opUpdateAuthor id n b cy =>
      simp only [applyOp]
      rw [(update_author_frame db id n b cy).2]
      exact h bid
  | opDeleteAuthor id ans =>
      simp only [applyOp]
      rw [(delete_author_frame db id ans).2]
      exact h bid

/-- Witness for C1 at a concrete state (one returned borrow) and operation
(borrowing the book again). -/
theorem single_open_borrow_invariant_preserved_witness :
    openCountL (applyOp (Op.opBorrow 1 "Bob" "2026-02-01") dbDuneReturned).borrows 1
      ≤ 1 :=
  single_open_borrow_invariant_preserved dbDuneReturned
    (Op.opBorrow 1 "Bob" "2026-02-01")
    (fun _ => le_trans (List.countP_le_length _) (by decide)) 1

-- C4

/-- C4: for every Borrow row whose ReturnDate is non-null, no operation
(including another Return with the same or a different id) ever changes that
ReturnDate: in the state after any core operation, every Borrow row carrying
that row's id still has the same non-null ReturnDate. -/
theorem returnDate_immutable_once_set (db : DB) (op : Op) (hwf : IdsWF db)
    (r : Borrow) (hr : r ∈ db.borrows) (d : String) (hd : r.returnDate = some d) :
    ∀ u ∈ (applyOp op db).borrows, u.borrowId = r.borrowId →
      u.returnDate = some d := by
  obtain ⟨-, -, hlt, -, -, hnd⟩ := hwf
  have hinj : ∀ x ∈ db.borrows, ∀ y ∈ db.borrows, x.borrowId = y.borrowId →
      x = y := fun x hx y hy hxy => List.inj_on_of_nodup_map hnd hx hy hxy
  intro u hu hid
  cases op with
  | opBorrow bookId name today =>
      simp only [applyOp] at hu
      rcases borrow_book_state db bookId name today with hs | ⟨he, -⟩
      · rw [hs] at hu
        rw [hinj u hu r hr hid]
        exact hd
      · rw [he] at hu
        rcases List.mem_append.mp hu with hu1 | hu2
        · rw [hinj u hu1 r hr hid]
          exact hd
        · exfalso
          have hu3 : u = ⟨db.nextBorrowId, bookId, name, today, none⟩ := by
            simpa using hu2
          have hrlt := hlt r hr
          rw [hu3] at hid
          simp only at hid
          omega
  | opReturn borrowId today =>
      simp only [applyOp] at hu
      rcases return_book_state db borrowId today with hs | ⟨g, hg, hgid, hgopen, he⟩
      · rw [hs] at hu
        rw [hinj u hu r hr hid]
        exact hd
      · rw [he] at hu
        rcases List.mem_map.mp hu with ⟨x, hx, hfx⟩
        by_cases hxid : (x.borrowId == borrowId) = true
        · exfalso
          have hxid' : x.borrowId = borrowId := by simpa using hxid
          rw [if_pos hxid] at hfx
          have huid : u.borrowId = x.borrowId := by
            rw [← hfx]
          have hxr : x = r := hinj x hx r hr (by rw [← huid, hid])
          have hgr : g = r := hinj g hg r hr (by rw [hgid, ← hxid', hxr])
          rw [hgr, hd] at hgopen
          cases hgopen
        · rw [if_neg hxid] at hfx
          have hxr : x = r := hinj x hx r hr (by rw [hfx, hid])
          rw [← hfx, hxr]
          exact hd
  | opAddBook title pubYear choice cy =>
      simp only [applyOp] at hu
      rw [add_book_frame db title pubYear choice cy] at hu
      rw [hinj u hu r hr hid]
      exact hd
  | opUpdateBookTitle bookId newTitle =>
      simp only [applyOp] at hu
      rw [(update_book_title_frame db bookId newTitle).2] at hu
      rw [hinj u hu r hr hid]
      exact hd
  | opDeleteBook bookId ans =>
      simp only [applyOp] at hu
      rcases delete_book_state db bookId ans with hs | hs
      · rw [hs] at hu
        rw [hinj u hu r hr hid]
        exact hd
      · rw [hs] at hu
        have hu' : u ∈ db.borrows := by
          have hmf : u ∈ cascadeDeleteBorrows db.borrows bookId := hu
          exact (List.mem_filter.mp hmf).1
        rw [hinj u hu' r hr hid]
        exact hd
  | opAddAuthor name birthYear cy =>
      simp only [applyOp] at hu
      rw [(add_author_frame db name birthYear cy).2] at hu
      rw [hinj u hu r hr hid]
      exact hd
  | opUpdateAuthor id n b cy =>
      simp only [applyOp] at hu
      rw [(update_author_frame db id n b cy).2] at hu
      rw [hinj u hu r hr hid]
      exact hd
  | opDeleteAuthor id ans =>
      simp only [applyOp] at hu
      rw [(delete_author_frame db id ans).2] at hu
      rw [hinj u hu r hr hid]
      exact hd

/-- Witness for C4: a second Return aimed at the already-returned row leaves
its ReturnDate unchanged. -/
theorem returnDate_immutable_once_set_witness :
    (⟨1, 1, "Alice", "2026-01-01", some "2026-01-03"⟩ : Borrow).returnDate
      = some "2026-01-03" :=
  returnDate_immutable_once_set dbDuneReturned (Op.opReturn 1 "2026-02-02")
    (by exact ⟨by decide, by decide, by decide, by decide, by decide, by decide⟩)
    ⟨1, 1, "Alice", "2026-01-01", some "2026-01-03"⟩ (by decide) "2026-01-03" rfl
    ⟨1, 1, "Alice", "2026-01-01", some "2026-01-03"⟩ (by decide) rfl

-- C2

/-- C2: in every state containing an open Borrow row for `bookId` (with the
single-open-borrow invariant in force and the book present, as the store's
referential integrity guarantees), `borrow_book` fails with `ConflictError`
naming that open row's borrower, and inserts no Borrow row: the state is
returned unchanged. -/
theorem borrow_conflict_reports_current_borrower
    (db : DB) (bookId : Nat) (borrowerName today : String) (r : Borrow)
    (hname : borrowerName ≠ "")
    (hinv : AtMostOneOpen db)
    (hr : r ∈ db.borrows) (hrb : r.bookId = bookId) (hropen : r.returnDate = none)
    (hbook : ∃ b ∈ db.books, b.bookId = bookId) :
    borrow_book db bookId borrowerName today
      = (db, .error (.conflictError r.borrowerName)) := by
  obtain ⟨b, hb, hbid⟩ := hbook
  have hfb : (db.books.find? (fun x => x.bookId == bookId)).isSome := by
    rw [List.find?_isSome]
    exact ⟨b, hb, by simp [hbid]⟩
  obtain ⟨b0, hb0⟩ := Option.isSome_iff_exists.mp hfb
  have hpredr : (fun x : Borrow => x.bookId == bookId && x.returnDate.isNone) r
      = true := by
    simp [hrb, hropen]
  have hfr : (db.borrows.find?
      (fun x => x.bookId == bookId && x.returnDate.isNone)).isSome := by
    rw [List.find?_isSome]
    exact ⟨r, hr, hpredr⟩
  obtain ⟨g, hg⟩ := Option.isSome_iff_exists.mp hfr
  have hcnt : db.borrows.countP
      (fun x : Borrow => x.bookId == bookId && x.returnDate.isNone) ≤ 1 :=
    hinv bookId
  have hgp : (fun x : Borrow => x.bookId == bookId && x.returnDate.isNone) g
      = true := by
    have h9 := List.find?_some hg
    exact h9
  have hgr : g = r :=
    eq_of_countP_le_one _ hcnt (List.mem_of_find?_eq_some hg) hr hgp hpredr
  unfold borrow_book
  rw [if_neg hname, hb0, hg, hgr]

/-- Witness for C2: borrowing the already-borrowed book fails, naming
Alice. -/
theorem borrow_conflict_reports_current_borrower_witness :
    borrow_book dbDuneBorrowed 1 "Bob" "2026-01-02"
      = (dbDuneBorrowed, .error (.conflictError "Alice")) :=
  borrow_conflict_reports_current_borrower dbDuneBorrowed 1 "Bob" "2026-01-02"
    ⟨1, 1, "Alice", "2026-01-01", none⟩ (by decide)
    (fun _ => le_trans (List.countP_le_length _) (by decide))
    (by decide) rfl rfl
    ⟨⟨1, "Dune", some 1965, none⟩, by decide, rfl⟩

-- C3

/-- C3: if no Borrow row with the given id is open — including ids of rows
already returned and ids absent from the table — `return_book` fails with
`NotFoundError` and returns the state (so every Borrow row) unchanged; for an
id with an open row (whose book exists, as referential integrity guarantees),
it succeeds, sets that row's ReturnDate to the current date, and its
verification (the re-read ReturnDate is non-null) passes. -/
theorem return_book_semantics (db : DB) (borrowId : Nat) (today : String)
    (htoday : today ≠ "") :
    ((∀ r ∈ db.borrows, r.borrowId = borrowId → r.returnDate ≠ none) →
       return_book db borrowId today = (db, .error .notFoundError)) ∧
    (∀ r ∈ db.borrows, r.borrowId = borrowId → r.returnDate = none →
       (∃ b ∈ db.books, b.bookId = r.bookId) →
       return_book db borrowId today =
         ({ db with borrows := db.borrows.map (fun x =>
             if x.borrowId == borrowId then { x with returnDate := some today }
             else x) },
          .ok ())) := by
  constructor
  · intro hnone
    have hf : db.borrows.find? (fun x => x.borrowId == borrowId
        && x.returnDate.isNone
        && db.books.any (fun b => b.bookId == x.bookId)) = none := by
      rw [List.find?_eq_none]
      intro x hx hpx
      simp only [Bool.and_eq_true, beq_iff_eq, Option.isNone_iff_eq_none] at hpx
      exact hnone x hx hpx.1.1 hpx.1.2
    unfold return_book
    rw [hf]
  · intro r hr hrid hropen hbook
    obtain ⟨b, hb, hbid⟩ := hbook
    have hpredr : (fun x : Borrow => x.borrowId == borrowId
        && x.returnDate.isNone
        && db.books.any (fun y => y.bookId == x.bookId)) r = true := by
      simp only [Bool.and_eq_true, beq_iff_eq, Option.isNone_iff_eq_none]
      refine ⟨⟨hrid, hropen⟩, ?_⟩
      rw [List.any_eq_true]
      exact ⟨b, hb, by simp [hbid]⟩
    have hf : (db.borrows.find? (fun x => x.borrowId == borrowId
        && x.returnDate.isNone
        && db.books.any (fun y => y.bookId == x.bookId))).isSome := by
      rw [List.find?_isSome]
      exact ⟨r, hr, hpredr⟩
    obtain ⟨g, hg⟩ := Option.isSome_iff_exists.mp hf
    unfold return_book
    rw [hg]
    show returnBookWrite db borrowId today = _
    unfold returnBookWrite
    rw [Prod.mk.injEq]
    refine ⟨rfl, ?_⟩
    have hpf : ∀ x : Borrow,
        ((if x.borrowId == borrowId then { x with returnDate := some today }
          else x).borrowId == borrowId) = (x.borrowId == borrowId) := by
      intro x
      by_cases hx : (x.borrowId == borrowId) = true
      · rw [if_pos hx]
      · rw [if_neg hx]
    have hcomm := find?_map_pred (fun x : Borrow => x.borrowId == borrowId)
        (fun x => if x.borrowId == borrowId then { x with returnDate := some today }
          else x) hpf db.borrows
    rw [hcomm]
    have hf2 : (db.borrows.find? (fun x : Borrow => x.borrowId == borrowId)).isSome := by
      rw [List.find?_isSome]
      exact ⟨r, hr, by simp [hrid]⟩
    obtain ⟨u, hu⟩ := Option.isSome_iff_exists.mp hf2
    rw [hu, Option.map_some']
    have hupred : (u.borrowId == borrowId) = true := by
      have h9 := List.find?_some hu
      exact h9
    rw [if_pos hupred]
    show (if today = "" then (Except.error LibError.verificationError : Except LibError Unit)
          else Except.ok ()) = Except.ok ()
    rw [if_neg htoday]

/-- Witness for C3: returning the open borrow of `dbDuneBorrowed` succeeds
and stamps its ReturnDate. -/
theorem return_book_semantics_witness :
    return_book dbDuneBorrowed 1 "2026-01-03" =
      ({ dbDuneBorrowed with borrows := dbDuneBorrowed.borrows.map (fun x =>
          if x.borrowId == 1 then { x with returnDate := some "2026-01-03" }
          else x) },
       .ok ()) :=
  (return_book_semantics dbDuneBorrowed 1 "2026-01-03" (by decide)).2
    ⟨1, 1, "Alice", "2026-01-01", none⟩ (by decide) rfl rfl
    ⟨⟨1, "Dune", some 1965, none⟩, by decide, rfl⟩

-- C5

/-- Every line of the borrow listing comes from a Borrow row of the current
table (carrying that row's `BorrowID`). -/
theorem view_borrowed_books_sound (db : DB) (ot : Bool) (v : BorrowView)
    (hv : v ∈ view_borrowed_books db ot) :
    ∃ r ∈ db.borrows, v.borrowId = r.borrowId := by
  unfold view_borrowed_books at hv
  rw [mem_sortRows] at hv
  obtain ⟨r, hrmem, hfr⟩ := List.mem_filterMap.mp hv
  refine ⟨r, hrmem, ?_⟩
  rcases hfind : db.books.find? (fun b => b.bookId == r.bookId) with _ | bb
  · rw [hfind] at hfr
    exact Option.noConfusion hfr
  · rw [hfind] at hfr
    have hfr2 : (if (!ot || r.returnDate.isNone) = true
        then some (BorrowView.mk r.borrowId bb.title r.borrowerName
          r.dateBorrowed r.returnDate)
        else none) = some v := hfr
    by_cases hoo : (!ot || r.returnDate.isNone) = true
    · rw [if_pos hoo] at hfr2
      have hv2 := Option.some.inj hfr2
      rw [← hv2]
    · rw [if_neg hoo] at hfr2
      exact Option.noConfusion hfr2

/-- C5: for an existing BookID, a confirmed Book delete succeeds (its
read-back verification confirms the Book row is gone), removes the Book row
and — by the cascade — every Borrow row referencing the book, and afterwards
the history listings (outstanding or full) contain no record for that
BookID: every remaining listing line comes from a Borrow row of another
book. -/
theorem delete_book_cascade_semantics (db : DB) (bookId : Nat)
    (hbook : ∃ b ∈ db.books, b.bookId = bookId) :
    (delete_book db bookId "yes").2 = .ok () ∧
    (delete_book db bookId "yes").1.books.find? (fun b => b.bookId == bookId)
      = none ∧
    (delete_book db bookId "yes").1.borrows.filter (fun r => r.bookId == bookId)
      = [] ∧
    (∀ onlyOutstanding : Bool,
      ∀ v ∈ view_borrowed_books (delete_book db bookId "yes").1 onlyOutstanding,
        ∃ r ∈ (delete_book db bookId "yes").1.borrows,
          v.borrowId = r.borrowId ∧ r.bookId ≠ bookId) := by
  obtain ⟨b, hb, hbid⟩ := hbook
  have hfb : (db.books.find? (fun x => x.bookId == bookId)).isSome := by
    rw [List.find?_isSome]
    exact ⟨b, hb, by simp [hbid]⟩
  obtain ⟨b0, hb0⟩ := Option.isSome_iff_exists.mp hfb
  have hgone : (db.books.filter (fun x => x.bookId != bookId)).find?
      (fun x => x.bookId == bookId) = none := by
    rw [List.find?_eq_none]
    intro x hx
    have hxf := (List.mem_filter.mp hx).2
    simpa using hxf
  have hcasc : ∀ x ∈ cascadeDeleteBorrows db.borrows bookId,
      x.bookId ≠ bookId := by
    intro x hx
    have hx2 : x ∈ db.borrows.filter (fun y => y.bookId != bookId) := hx
    have hxf := (List.mem_filter.mp hx2).2
    simpa using hxf
  have hstate : delete_book db bookId "yes"
      = ({ db with books := db.books.filter (fun x => x.bookId != bookId),
                   borrows := cascadeDeleteBorrows db.borrows bookId },
         .ok ()) := by
    unfold delete_book deleteBookFound
    rw [hb0, if_pos (by decide : normalizeConfirm "yes" = "yes"), hgone]
    rfl
  refine ⟨?_, ?_, ?_, ?_⟩
  · rw [hstate]
  · rw [hstate]
    exact hgone
  · rw [hstate]
    rw [List.filter_eq_nil_iff]
    intro x hx
    have := hcasc x hx
    simpa using this
  · intro ot v hv
    rw [hstate] at hv
    obtain ⟨r, hrmem, hvid⟩ := view_borrowed_books_sound _ ot v hv
    rw [hstate]
    exact ⟨r, hrmem, hvid, hcasc r hrmem⟩

/-- Witness for C5: deleting the book with the returned borrow succeeds. -/
theorem delete_book_cascade_semantics_witness :
    (delete_book dbDuneReturned 1 "yes").2 = .ok () :=
  (delete_book_cascade_semantics dbDuneReturned 1
    ⟨⟨1, "Dune", some 1965, none⟩, by decide, rfl⟩).1

-- C6

/-- C6: for an existing Author id — also one referenced by Book rows —
a confirmed Author delete does not block on those references: it succeeds,
returning the count of referencing Book rows (informational output only),
removes exactly the Author row (Books and Borrows untouched), and its
read-back verification confirms the row is gone. -/
theorem delete_author_nonblocking (db : DB) (authorId : Nat)
    (ha : ∃ a ∈ db.authors, a.authorId = authorId) :
    delete_author db authorId "yes"
      = (authorDeleteEffect db authorId,
         .ok (db.books.countP (fun b => b.authorId == some authorId))) ∧
    (authorDeleteEffect db authorId).books = db.books ∧
    (authorDeleteEffect db authorId).borrows = db.borrows ∧
    (authorDeleteEffect db authorId).authors.find?
      (fun a => a.authorId == authorId) = none := by
  obtain ⟨a, haa, haid⟩ := ha
  have hfa : (db.authors.find? (fun x => x.authorId == authorId)).isSome := by
    rw [List.find?_isSome]
    exact ⟨a, haa, by simp [haid]⟩
  obtain ⟨a0, ha0⟩ := Option.isSome_iff_exists.mp hfa
  have hgone : (authorDeleteEffect db authorId).authors.find?
      (fun x => x.authorId == authorId) = none := by
    rw [List.find?_eq_none]
    intro x hx
    have hx2 : x ∈ db.authors.filter (fun y => y.authorId != authorId) := hx
    have hxf := (List.mem_filter.mp hx2).2
    simpa using hxf
  refine ⟨?_, rfl, rfl, hgone⟩
  unfold delete_author deleteAuthorFound
  rw [ha0, if_pos (by decide : normalizeConfirm "yes" = "yes"), hgone]
  rfl

/-- Witness for C6: deleting Jane Doe, referenced by one book, succeeds and
reports the count 1. -/
theorem delete_author_nonblocking_witness :
    delete_author dbJaneBook 1 "yes" = (authorDeleteEffect dbJaneBook 1, .ok 1) :=
  (delete_author_nonblocking dbJaneBook 1
    ⟨⟨1, "Jane Doe", some 1970⟩, by decide, rfl⟩).1

-- C7

/-- C7: whenever the supplied AuthorID exists in no Author row at the moment
the insert runs, Book creation fails with `ReferenceError` and persists no
Book row, on both input paths by which an author id can be supplied: menu
choice 1 (use an existing author — here the whole state is unchanged) and
menu choice 2 (create a new author first, then enter an id; the id is only
consumed when the author creation succeeded, and the Books table is left
exactly as before). -/
theorem add_book_missing_author_reference_error (db : DB) (title : String)
    (pubYear : Option Int) (aid : Nat) (currentYear : Int)
    (htitle : title ≠ "") (hpy : pubYearValid currentYear pubYear = true)
    (hmiss : ∀ a ∈ db.authors, a.authorId ≠ aid) :
    (add_book db title pubYear (.useExisting (some aid)) currentYear
        = (db, .error .referenceError)) ∧
    (∀ name birthYear,
      (∃ k, (add_author db name birthYear currentYear).2 = Except.ok k) →
      (∀ a ∈ (add_author db name birthYear currentYear).1.authors,
          a.authorId ≠ aid) →
      (add_book db title pubYear (.addNew name birthYear (some aid))
          currentYear).2 = .error .referenceError ∧
      (add_book db title pubYear (.addNew name birthYear (some aid))
          currentYear).1.books = db.books) := by
  have hpv : ¬(!pubYearValid currentYear pubYear) = true := by simp [hpy]
  have hIns : ∀ db2 : DB, (∀ a ∈ db2.authors, a.authorId ≠ aid) →
      insertBook db2 title pubYear (some aid)
        = (db2, .error .referenceError) := by
    intro db2 h2
    have hany : (db2.authors.any fun x => x.authorId == aid) = false := by
      rw [← Bool.not_eq_true, List.any_eq_true]
      rintro ⟨x, hx, hxa⟩
      exact h2 x hx (by simpa using hxa)
    rw [show insertBook db2 title pubYear (some aid)
          = if db2.authors.any (fun x => x.authorId == aid) then
              insertBookRow db2 title pubYear (some aid)
            else (db2, Except.error LibError.referenceError) from rfl]
    rw [if_neg (by simp [hany] :
      ¬(db2.authors.any fun x => x.authorId == aid) = true)]
  constructor
  · unfold add_book
    rw [if_neg htitle, if_neg hpv]
    exact hIns db hmiss
  · intro name birthYear hok hmiss2
    obtain ⟨k, hk⟩ := hok
    have hbooks := (add_author_frame db name birthYear currentYear).1
    have hstate : add_book db title pubYear (.addNew name birthYear (some aid))
        currentYear
        = ((add_author db name birthYear currentYear).1,
           .error .referenceError) := by
      unfold add_book
      rw [if_neg htitle, if_neg hpv]
      show addBookWithNewAuthor db title pubYear name birthYear (some aid)
          currentYear = _
      unfold addBookWithNewAuthor
      rcases hpair : add_author db name birthYear currentYear with ⟨db1, res⟩
      rw [hpair] at hk hmiss2
      have hres : res = Except.ok k := hk
      subst hres
      exact hIns db1 (fun a ha => hmiss2 a ha)
    constructor
    · rw [hstate]
    · rw [hstate]
      exact hbooks

/-- Witness for C7 on the empty database: both supply paths fail for the
nonexistent author id 7, and no Book row is persisted. -/
theorem add_book_missing_author_reference_error_witness :
    add_book emptyDB "X" none (AuthorChoice.useExisting (some 7)) 2026
      = (emptyDB, .error .referenceError) :=
  (add_book_missing_author_reference_error emptyDB "X" none 7 2026
    (by decide) rfl (by simp [emptyDB])).1

-- C8

/-- The verified author update always succeeds when a row with the target id
exists, and the re-read row carries the new name and birth year. -/
theorem updateAuthorWrite_spec (db : DB) (authorId : Nat) (newName : String)
    (newBirthYear : Option Int) (a : Author)
    (hfind : db.authors.find? (fun x => x.authorId == authorId) = some a) :
    (updateAuthorWrite db authorId newName newBirthYear).2 = .ok () ∧
    (updateAuthorWrite db authorId newName newBirthYear).1.authors.find?
        (fun x => x.authorId == authorId)
      = some { a with authorName := newName, birthYear := newBirthYear } := by
  have hap : (fun x : Author => x.authorId == authorId) a = true := by
    have h9 := List.find?_some hfind
    exact h9
  have hpf : ∀ x : Author,
      ((if x.authorId == authorId then
          { x with authorName := newName, birthYear := newBirthYear }
        else x).authorId == authorId) = (x.authorId == authorId) := by
    intro x
    by_cases hx : (x.authorId == authorId) = true
    · rw [if_pos hx]
    · rw [if_neg hx]
  have hcomm := find?_map_pred (fun x : Author => x.authorId == authorId)
      (fun x => if x.authorId == authorId then
          { x with authorName := newName, birthYear := newBirthYear }
        else x) hpf db.authors
  have hfindm : (db.authors.map (fun x =>
      if x.authorId == authorId then
        { x with authorName := newName, birthYear := newBirthYear }
      else x)).find? (fun x => x.authorId == authorId)
      = some { a with authorName := newName, birthYear := newBirthYear } := by
    rw [hcomm, hfind, Option.map_some', if_pos hap]
  constructor
  · unfold updateAuthorWrite
    show (match (db.authors.map (fun x =>
        if x.authorId == authorId then
          { x with authorName := newName, birthYear := newBirthYear }
        else x)).find? (fun x => x.authorId == authorId) with
      | some u =>
          if u.authorName == newName then (Except.ok () : Except LibError Unit)
          else .error .verificationError
      | none => .error .verificationError) = .ok ()
    rw [hfindm]
    simp
  · exact hfindm

/-- C8: round trip over the Author repository.  Concretely: creating
"Jane Doe" (1970) in the empty database yields id 1, the listing contains
exactly that one row; updating id 1 with the name omitted and birth year 1971
succeeds and the listing then shows 1971 with the name unchanged.  In
general: a partial update with the name omitted (and a valid or omitted birth
year input) succeeds, and the re-read row keeps the prior name, its birth
year being replaced only when an input was supplied. -/
theorem author_create_update_round_trip :
    ((add_author emptyDB "Jane Doe" (some 1970) 2026).2 = .ok 1 ∧
     view_authors (add_author emptyDB "Jane Doe" (some 1970) 2026).1
       = [⟨1, "Jane Doe", some 1970⟩] ∧
     (update_author (add_author emptyDB "Jane Doe" (some 1970) 2026).1
        1 "" (some 1971) 2026).2 = .ok () ∧
     view_authors (update_author (add_author emptyDB "Jane Doe" (some 1970) 2026).1
        1 "" (some 1971) 2026).1 = [⟨1, "Jane Doe", some 1971⟩]) ∧
    (∀ (db : DB) (authorId : Nat) (byIn : Option Int) (cy : Int) (a : Author),
      db.authors.find? (fun x => x.authorId == authorId) = some a →
      birthYearValid cy byIn = true →
      (update_author db authorId "" byIn cy).2 = .ok () ∧
      (update_author db authorId "" byIn cy).1.authors.find?
          (fun x => x.authorId == authorId)
        = some { a with birthYear := suppliedOr byIn a.birthYear }) := by
  constructor
  · exact ⟨by decide, by decide, by decide, by decide⟩
  · intro db authorId byIn cy a hfind hvalid
    have hred : update_author db authorId "" byIn cy
        = updateAuthorWrite db authorId a.authorName
            (suppliedOr byIn a.birthYear) := by
      unfold update_author
      rw [hfind]
      show updateAuthorFound db authorId a "" byIn cy = _
      unfold updateAuthorFound
      rw [if_neg (by simp [hvalid] : ¬(!birthYearValid cy byIn) = true),
          if_pos (rfl : ("" : String) = "")]
    have hspec := updateAuthorWrite_spec db authorId a.authorName
        (suppliedOr byIn a.birthYear) a hfind
    constructor
    · rw [hred]
      exact hspec.1
    · rw [hred]
      exact hspec.2

/-- Witness for C8's general part at the concrete round-trip state: the
re-read row after the partial update keeps the name and shows 1971. -/
theorem author_create_update_round_trip_witness :
    (update_author (add_author emptyDB "Jane Doe" (some 1970) 2026).1
        1 "" (some 1971) 2026).1.authors.find? (fun x => x.authorId == 1)
      = some ⟨1, "Jane Doe", some 1971⟩ :=
  (author_create_update_round_trip.2 (add_author emptyDB "Jane Doe" (some 1970) 2026).1
    1 (some 1971) 2026 ⟨1, "Jane Doe", some 1970⟩ (by decide) (by decide)).2

-- C9

/-- C9: Book Delete and Author Delete perform no write unless the
confirmation answer, lower-cased and trimmed, is exactly "yes": on any other
answer both operations report a failure and the whole state — so every table
— is unchanged. -/
theorem delete_requires_yes_confirmation (db : DB) (bookId authorId : Nat)
    (ans : String) (h : normalizeConfirm ans ≠ "yes") :
    (delete_book db bookId ans).1 = db ∧
    (∃ e, (delete_book db bookId ans).2 = .error e) ∧
    (delete_author db authorId ans).1 = db ∧
    (∃ e, (delete_author db authorId ans).2 = .error e) := by
  refine ⟨?_, ?_, ?_, ?_⟩
  · unfold delete_book deleteBookFound
    rcases hfb : db.books.find? (fun b => b.bookId == bookId) with _ | b
    · rw [hfb]
    · rw [hfb, if_neg h]
  · unfold delete_book deleteBookFound
    rcases hfb : db.books.find? (fun b => b.bookId == bookId) with _ | b
    · rw [hfb]
      exact ⟨.notFoundError, rfl⟩
    · rw [hfb, if_neg h]
      exact ⟨.canceled, rfl⟩
  · unfold delete_author deleteAuthorFound
    rcases hfa : db.authors.find? (fun a => a.authorId == authorId) with _ | a
    · rw [hfa]
    · rw [hfa, if_neg h]
  · unfold delete_author deleteAuthorFound
    rcases hfa : db.authors.find? (fun a => a.authorId == authorId) with _ | a
    · rw [hfa]
      exact ⟨.notFoundError, rfl⟩
    · rw [hfa, if_neg h]
      exact ⟨.canceled, rfl⟩

/-- Witness for C9: answering "no" leaves the state (an existing author and
book) unchanged and both deletes report failure. -/
theorem delete_requires_yes_confirmation_witness :
    (delete_book dbJaneBook 1 "no").1 = dbJaneBook ∧
    (∃ e, (delete_book dbJaneBook 1 "no").2 = .error e) ∧
    (delete_author dbJaneBook 1 "no").1 = dbJaneBook ∧
    (∃ e, (delete_author dbJaneBook 1 "no").2 = .error e) :=
  delete_requires_yes_confirmation dbJaneBook 1 1 "no" (by decide)

-- C10

/-- C10: a stored year value of 0 is accepted by both validation ranges
(BirthYear needs 0 ≤ 0 ≤ currentYear, PublicationYear needs
0 ≤ 0 ≤ currentYear + 10) yet is rendered as "Unknown" in the listings'
year cell, indistinguishably from a NULL year, because the rendering
branches on truthiness rather than on null-ness. -/
theorem year_zero_renders_unknown (cy : Int) (h : 0 ≤ cy) :
    birthYearValid cy (some 0) = true ∧
    pubYearValid cy (some 0) = true ∧
    renderYearCell (some 0) = "Unknown" ∧
    renderYearCell (some 0) = renderYearCell none := by
  refine ⟨?_, ?_, rfl, rfl⟩
  · unfold birthYearValid
    simp [h]
  · unfold pubYearValid
    have h10 : (0 : Int) ≤ cy + 10 := by omega
    simp [h10]

/-- Witness for C10 at the current year 2026. -/
theorem year_zero_renders_unknown_witness :
    birthYearValid 2026 (some 0) = true ∧
    pubYearValid 2026 (some 0) = true ∧
    renderYearCell (some 0) = "Unknown" ∧
    renderYearCell (some 0) = renderYearCell none :=
  year_zero_renders_unknown 2026 (by decide)
